import Mathlib

/-!
Shallow embedding of `absystool.py`, a CLI client for the AbsysNET library
catalog, together with proofs about its session lifecycle, credential store
and HTML extraction logic.

HTML parsing and HTTP transport are external collaborators: a page is
modelled by the results of the fixed XPath queries the code performs on it,
and a response by its body text and final URL.  File-system state is
modelled as an optional file content; Python exceptions become an explicit
error type.
-/

/-- Exceptions the Python code can raise, plus the two typed errors the
design documentation names (`PageStructureError`, `CorruptStateError`).
The latter two have no corresponding class anywhere in `absystool.py`;
they are included only so that statements about them can be expressed. -/
inductive PyError where
  | indexError (msg : String)
  | keyError (key : String)
  | jsonDecodeError
  | valueError
  | attributeError
  | fileNotFoundError
  | pageStructureError (fragment : String)
  | corruptStateError
deriving Repr, DecidableEq

instance {ε α : Type} [DecidableEq ε] [DecidableEq α] : DecidableEq (Except ε α) := fun a b =>
  match a, b with
  | .error e1, .error e2 =>
    if h : e1 = e2 then .isTrue (by rw [h]) else .isFalse (fun hh => by cases hh; exact h rfl)
  | .ok a1, .ok a2 =>
    if h : a1 = a2 then .isTrue (by rw [h]) else .isFalse (fun hh => by cases hh; exact h rfl)
  | .error _, .ok _ => .isFalse (fun hh => by cases hh)
  | .ok _, .error _ => .isFalse (fun hh => by cases hh)

/-- Python list indexing `l[i]`: raises `IndexError` when out of range. -/
def pyIndex {α : Type} : List α → Nat → Except PyError α
  | [], _ => .error (.indexError "list index out of range")
  | x :: _, 0 => .ok x
  | _ :: xs, n + 1 => pyIndex xs n

/-- Whether `pat` occurs at the start of `cs` (character-list level). -/
def startsWithL : List Char → List Char → Bool
  | [], _ => true
  | _ :: _, [] => false
  | p :: ps, c :: cs => p == c && startsWithL ps cs

/-- Whether `pat` occurs anywhere inside `cs` (character-list level). -/
def hasSubL (pat : List Char) : List Char → Bool
  | [] => startsWithL pat []
  | c :: cs => startsWithL pat (c :: cs) || hasSubL pat cs

/-- Python's substring test `pat in s`. -/
def strContains (s pat : String) : Bool :=
  hasSubL pat.data s.data

/-- Splitter behind `pySplit`: `fuel` bounds the recursion (any value at
least the input length gives the true answer); `acc` holds the reversed
current chunk. -/
def splitGo (sep : List Char) : Nat → List Char → List Char → List (List Char)
  | _, [], acc => [acc.reverse]
  | 0, cs, acc => [acc.reverse ++ cs]
  | fuel + 1, c :: cs, acc =>
    if startsWithL sep (c :: cs) then
      acc.reverse :: splitGo sep fuel (List.drop (sep.length - 1) cs) []
    else
      splitGo sep fuel cs (c :: acc)

/-- Python `s.split(sep)` for a nonempty separator: splits on every
leftmost non-overlapping occurrence, keeping empty chunks. -/
def pySplit (s sep : String) : List String :=
  (splitGo sep.data s.data.length s.data []).map List.asString

/-- Replacer behind `pyReplace`, same fuel discipline as `splitGo`. -/
def replaceGo (pat rep : List Char) : Nat → List Char → List Char
  | _, [] => []
  | 0, cs => cs
  | fuel + 1, c :: cs =>
    if startsWithL pat (c :: cs) then
      rep ++ replaceGo pat rep fuel (List.drop (pat.length - 1) cs)
    else
      c :: replaceGo pat rep fuel cs

/-- Python `s.replace(pat, rep)` for a nonempty pattern. -/
def pyReplace (s pat rep : String) : String :=
  (replaceGo pat.data rep.data s.data.length s.data).asString

/-- ASCII whitespace recognised by Python's `str.strip`. -/
def isSpaceChar (c : Char) : Bool :=
  c == ' ' || c == '\t' || c == '\n' || c == '\r' || c == '\x0b' || c == '\x0c'

/-- Python `s.strip()` (restricted to ASCII whitespace). -/
def pyStrip (s : String) : String :=
  (((s.data.dropWhile isSpaceChar).reverse.dropWhile isSpaceChar).reverse).asString

/-- Accumulate a decimal value from a digit list; `none` on any
non-digit. -/
def natOfDigitsAux : List Char → Nat → Option Nat
  | [], acc => some acc
  | c :: cs, acc =>
    if c.isDigit then natOfDigitsAux cs (acc * 10 + (c.toNat - 48)) else none

/-- Decimal value of a nonempty all-digit list. -/
def natOfDigits : List Char → Option Nat
  | [] => none
  | cs => natOfDigitsAux cs 0

/-- Parse an optionally signed decimal integer, Python `int` style
(surrounding whitespace already stripped by the caller). -/
def pyIntParse (s : String) : Option Int :=
  match s.data with
  | [] => none
  | c :: cs =>
    if c == '-' then (natOfDigits cs).map (fun n => -(n : Int))
    else if c == '+' then (natOfDigits cs).map (fun n => (n : Int))
    else (natOfDigits (c :: cs)).map (fun n => (n : Int))

/-- Python `int(s, 10)`: strips surrounding whitespace, accepts an optional
sign followed by decimal digits, raises `ValueError` otherwise. -/
def pyInt (s : String) : Except PyError Int :=
  match pyIntParse (pyStrip s) with
  | some n => .ok n
  | none => .error .valueError

/-- Gregorian leap-year test, as used by Python's `datetime.date`. -/
def isLeap (y : Nat) : Bool :=
  y % 4 == 0 && (y % 100 != 0 || y % 400 == 0)

/-- Number of days in month `m` of year `y` (months numbered 1-12). -/
def daysInMonth (y m : Nat) : Nat :=
  if m == 2 then (if isLeap y then 29 else 28)
  else if m == 4 || m == 6 || m == 9 || m == 11 then 30
  else 31

/-- A validated `datetime.date`: `1 ≤ year ≤ 9999`, month and day in range. -/
structure PyDate where
  year : Nat
  month : Nat
  day : Nat
deriving Repr, DecidableEq

instance : Inhabited PyDate := ⟨⟨1, 1, 1⟩⟩

/-- Days in the full months of year `y` preceding month `m`. -/
def daysBeforeMonth (y m : Nat) : Nat :=
  (List.range (m - 1)).foldl (fun acc i => acc + daysInMonth y (i + 1)) 0

/-- Python `date.toordinal()`: day number in the proleptic Gregorian
calendar, with 0001-01-01 as day 1. -/
def toOrdinal (d : PyDate) : Int :=
  365 * ((d.year : Int) - 1) + ((d.year : Int) - 1) / 4
    - ((d.year : Int) - 1) / 100 + ((d.year : Int) - 1) / 400
    + (daysBeforeMonth d.year d.month : Int) + (d.day : Int)

/-- Python `(d1 - d2).days`: difference of ordinals. -/
def dateDiffDays (d1 d2 : PyDate) : Int :=
  toOrdinal d1 - toOrdinal d2

/-- Python `date(y, m, d)`: validates ranges, raises `ValueError` if the
arguments do not form a calendar date. -/
def pyDate (y m d : Int) : Except PyError PyDate :=
  if 1 ≤ y ∧ y ≤ 9999 ∧ 1 ≤ m ∧ m ≤ 12 ∧ 1 ≤ d ∧ (d ≤ (daysInMonth y.toNat m.toNat : Int)) then
    .ok ⟨y.toNat, m.toNat, d.toNat⟩
  else .error .valueError

/-! ## Page models

Each page is represented by the results of the XPath queries `absystool.py`
runs against it. -/

/-- The portal root page, as consumed by `login`: the `content` attribute
values of the meta-refresh tags found by the XPath query. -/
structure LoginPage where
  metaRefreshContents : List String
deriving Repr, DecidableEq

/-- The response to the authentication POST, as consumed by `login`:
its body text, the `title` attributes of `//a[@id="lecidentify"]`, and the
final response URL `res.url`. -/
structure AuthResponse where
  body : String
  anchorTitles : List String
  url : String
deriving Repr, DecidableEq

/-- The status page, as consumed by `status`: the `title` attributes of
`//a[@id="lecidentify"]`. -/
structure StatusPage where
  anchorTitles : List String
deriving Repr, DecidableEq

/-- A table cell; `text` is `none` when the lxml element has no text node. -/
structure Cell where
  text : Option String
deriving Repr, DecidableEq

/-- A table row; `children` models `loan.getchildren()`. -/
structure Row where
  children : List Cell
deriving Repr, DecidableEq

/-- The loans page, as consumed by `list`: the rows of
`//form[@id="abnformpre"]/table/tr`, header row included. -/
structure LoansPage where
  rows : List Row
deriving Repr, DecidableEq

/-- A loan record produced by `list`. -/
structure Loan where
  title : String
  due_date : PyDate
  remaining_days : Int
deriving Repr, DecidableEq

instance : Inhabited Loan := ⟨⟨"", default, 0⟩⟩

/-! ## Extraction code (`login`, `status`, `list`) -/

/-- Lines 87-89 of `login`: take the first meta-refresh `content` attribute,
split on `URL=` and take part 1, split on `?` and take part 0, then delete
every occurrence of `/cgi-bin/abnetopac`. -/
def loginExtractPath (p : LoginPage) : Except PyError String := do
  let content ← pyIndex p.metaRefreshContents 0
  let afterUrl ← pyIndex (pySplit content "URL=") 1
  let path ← pyIndex (pySplit afterUrl "?") 0
  pure (pyReplace path "/cgi-bin/abnetopac" "")

/-- Lines 103-108 of `login` on the success branch: the display name from
the first anchor title after the fixed marker, and the session token from
the response URL between `abnetopac/` and `/NT1`.  Returns
`(display_name, auth_id)`. -/
def loginHandleSuccess (res : AuthResponse) : Except PyError (String × String) := do
  let title ← pyIndex res.anchorTitles 0
  let name ← pyIndex (pySplit title "Cerrar sesión ") 1
  let seg ← pyIndex (pySplit res.url "abnetopac/") 1
  let auth ← pyIndex (pySplit seg "/NT1") 0
  pure (name, auth)

/-- Lines 116-117 of `status`: display name from the first anchor title. -/
def statusName (p : StatusPage) : Except PyError String := do
  let title ← pyIndex p.anchorTitles 0
  pyIndex (pySplit title "Cerrar sesión ") 1

/-- Python `element.text` followed by a method call: `None.strip()` raises
`AttributeError`. -/
def pyText (c : Cell) : Except PyError String :=
  match c.text with
  | some s => .ok s
  | none => .error .attributeError

/-- Lines 130-132 of `list`: strip the 4th cell's text, split on `/`,
convert parts 2, 1, 0 with `int(_, 10)` and build `date(y, m, d)`. -/
def parseDueDate (s : String) : Except PyError PyDate := do
  let p2 ← pyIndex (pySplit (pyStrip s) "/") 2
  let y ← pyInt p2
  let p1 ← pyIndex (pySplit (pyStrip s) "/") 1
  let m ← pyInt p1
  let p0 ← pyIndex (pySplit (pyStrip s) "/") 0
  let d ← pyInt p0
  pyDate y m d

/-- Lines 129-135 of `list`, one loop iteration: title from the 3rd cell
(trimmed), due date parsed from the 4th cell, and
`remaining_days = (due_date - today).days`. -/
def extractLoan (today : PyDate) (loan : Row) : Except PyError Loan := do
  let c2 ← pyIndex loan.children 2
  let t2 ← pyText c2
  let c3 ← pyIndex loan.children 3
  let t3 ← pyText c3
  let due ← parseDueDate t3
  pure ⟨pyStrip t2, due, dateDiffDays due today⟩

/-- The `for loan in loans` loop of `list`: any failing row aborts the
whole extraction (Python propagates the exception out of the loop). -/
def extractLoans (today : PyDate) : List Row → Except PyError (List Loan)
  | [] => .ok []
  | r :: rs => do
    let l ← extractLoan today r
    let ls ← extractLoans today rs
    pure (l :: ls)

/-- Line 126 plus the loop of `list`: drop the header row
(`[1:]`), then extract every remaining row. -/
def listLoans (today : PyDate) (page : LoansPage) : Except PyError (List Loan) :=
  extractLoans today (page.rows.drop 1)

/-- Lines 100-101 of `login`: if `incorrecta` occurs in the response body,
recurse into another interactive attempt.  The environment is modelled as
the list of authentication responses the successive attempts would receive;
`none` means every provided response carried the failure marker, i.e. the
recursion consumed the whole stream without returning.  On success the
result also counts the attempts made. -/
def loginAttempts : List AuthResponse → Option (AuthResponse × Nat)
  | [] => none
  | r :: rs =>
    if strContains r.body "incorrecta" then
      match loginAttempts rs with
      | some (res, n) => some (res, n + 1)
      | none => none
    else some (r, 1)

/-! ## Credential store and session state -/

/-- Python dict `self._creds`, restricted to the two keys the program ever
uses.  A `none` field models an absent key, so partial on-disk records are
representable. -/
structure CredsMap where
  auth_id : Option String
  user_id : Option String
deriving Repr, DecidableEq

/-- Content of the `authid` file: either JSON parseable into a credentials
dict, or text `json.load` rejects. -/
inductive FileContent where
  | parsable (m : CredsMap)
  | unparsable
deriving Repr, DecidableEq

/-- `AbsysClient` state: the persisted file (if any), the in-memory
`_creds` dict and the `base` URL field. -/
structure ClientState where
  file : Option FileContent
  creds : CredsMap
  base : String
deriving Repr, DecidableEq

def ABNETSYS_BASE : String :=
  "https://catalogobiblioteca.uclm.es/cgi-bin/abnetopac"

/-- `AbsysClient.__init__`: empty `_creds`, base at the portal origin; the
persisted file is whatever is on disk. -/
def initState (file : Option FileContent) : ClientState :=
  { file := file, creds := ⟨none, none⟩, base := ABNETSYS_BASE }

/-- Lines 43-48, `_load_credentials`: no file means no change; an
unparseable file raises `json.JSONDecodeError`; otherwise `_creds` is set
from the file and `base` is rebuilt from `_creds['auth_id']`, a lookup
that raises `KeyError` when the record lacks that key. -/
def loadCredentials (st : ClientState) : Except PyError ClientState :=
  match st.file with
  | none => .ok st
  | some .unparsable => .error .jsonDecodeError
  | some (.parsable m) =>
    match m.auth_id with
    | none => .error (.keyError "auth_id")
    | some a => .ok { st with creds := m, base := ABNETSYS_BASE ++ "/" ++ a }

/-- Lines 50-57, `_save_credentials`: write both keys into `_creds`,
dump the dict to the file (directory creation is idempotent and elided)
and rebuild `base`. -/
def saveCredentials (_st : ClientState) (auth_id user_id : String) : ClientState :=
  { file := some (.parsable ⟨some auth_id, some user_id⟩),
    creds := ⟨some auth_id, some user_id⟩,
    base := ABNETSYS_BASE ++ "/" ++ auth_id }

/-- Lines 68-75, `logout`: if the in-memory `_creds` has no `auth_id`,
print `not authenticated` (the returned flag); otherwise `os.unlink` the
file, which raises `FileNotFoundError` when it does not exist. -/
def logout (st : ClientState) : Except PyError (ClientState × Bool) :=
  match st.creds.auth_id with
  | none => .ok (st, true)
  | some _ =>
    match st.file with
    | none => .error .fileNotFoundError
    | some _ => .ok ({ st with file := none }, false)

/-- Lines 144-145, the `logout` subcommand: a fresh `AbsysClient` (empty
in-memory `_creds`) on which `logout` is invoked directly; nothing loads
the persisted record first. -/
def logoutCommand (file : Option FileContent) : Except PyError (ClientState × Bool) :=
  logout (initState file)

/-- Fixed marker of the expiry page checked by `_ensure_auth`. -/
def timeoutMarker : String := "/abnetopac/timeout.html"

/-- Result of `_ensure_auth`: the client state at the point the method
either calls `login` or returns, how many times `login` was invoked, and
whether the expiry message was printed. -/
structure EnsureResult where
  st : ClientState
  loginCalls : Nat
  printedExpired : Bool
deriving Repr, DecidableEq

/-- Lines 59-66, `_ensure_auth`: load credentials; with no `auth_id` in
`_creds`, call `login`; otherwise probe the session root and, if the body
contains the timeout marker, print the expiry notice, reset `_creds` to an
empty dict (the file is left untouched) and call `login`; otherwise accept
the session unchanged.  `probeBody` is the body the probe GET would
return; it is consulted only on the branch that actually issues the
probe. -/
def ensureAuth (st0 : ClientState) (probeBody : String) : Except PyError EnsureResult := do
  let st ← loadCredentials st0
  match st.creds.auth_id with
  | none => pure ⟨st, 1, false⟩
  | some _ =>
    if strContains probeBody timeoutMarker then
      pure ⟨{ st with creds := ⟨none, none⟩ }, 1, true⟩
    else
      pure ⟨st, 0, false⟩

/-- Whether an error is the typed page-structure error the design
documentation prescribes. -/
def isPageStructure : PyError → Bool
  | .pageStructureError _ => true
  | _ => false

/-! ## Concrete fixtures used by witnesses -/

/-- An authentication response whose body carries the failure marker. -/
def badResp : AuthResponse := ⟨"Identificación incorrecta.", [], ""⟩

/-- An authentication response whose body lacks the failure marker. -/
def goodResp : AuthResponse :=
  ⟨"Bienvenido", ["Cerrar sesión J"], "x/abnetopac/S1/NT1"⟩

/-- A loans page with one header row and two well-formed data rows. -/
def demoLoansPage : LoansPage :=
  ⟨[⟨[]⟩,
    ⟨[⟨some "1"⟩, ⟨some "x"⟩, ⟨some " Book A "⟩, ⟨some "01/01/2024"⟩]⟩,
    ⟨[⟨some "2"⟩, ⟨some "y"⟩, ⟨some "Book B"⟩, ⟨some "15/02/2024"⟩]⟩]⟩

/-- The fixed "today" used to evaluate the loans fixture. -/
def demoToday : PyDate := ⟨2024, 1, 10⟩

/-- The loan records the extractor produces from `demoLoansPage`. -/
def demoLoans : List Loan :=
  [⟨"Book A", ⟨2024, 1, 1⟩, -9⟩, ⟨"Book B", ⟨2024, 2, 15⟩, 36⟩]

/-! ## Helper lemmas -/

theorem pyIndex_ok_iff {α : Type} (l : List α) (n : Nat) (x : α) :
    pyIndex l n = .ok x ↔ l.get? n = some x := by
  induction l generalizing n with
  | nil => simp [pyIndex]
  | cons a as ih =>
    cases n with
    | zero => simp [pyIndex]
    | succ m => simpa [pyIndex] using ih m

theorem pyIndex_error_eq {α : Type} (l : List α) (n : Nat) (e : PyError)
    (h : pyIndex l n = .error e) : e = .indexError "list index out of range" := by
  induction l generalizing n with
  | nil => simp [pyIndex] at h; exact h.symm
  | cons a as ih =>
    cases n with
    | zero => simp [pyIndex] at h
    | succ m => exact ih m h

theorem pyIndex_error_of_le {α : Type} (l : List α) (n : Nat) (h : l.length ≤ n) :
    pyIndex l n = .error (.indexError "list index out of range") := by
  induction l generalizing n with
  | nil => simp [pyIndex]
  | cons a as ih =>
    cases n with
    | zero => simp at h
    | succ m => exact ih m (Nat.le_of_succ_le_succ h)

theorem pyText_error_eq (c : Cell) (e : PyError) (h : pyText c = .error e) :
    e = .attributeError := by
  cases hc : c.text with
  | none => simp [pyText, hc] at h; exact h.symm
  | some s => simp [pyText, hc] at h

theorem pyInt_error_eq (s : String) (e : PyError) (h : pyInt s = .error e) :
    e = .valueError := by
  unfold pyInt at h
  cases hp : pyIntParse (pyStrip s) with
  | none => rw [hp] at h; exact (Except.error.inj h).symm
  | some n => rw [hp] at h; cases h

theorem pyDate_error_eq (y m d : Int) (e : PyError) (h : pyDate y m d = .error e) :
    e = .valueError := by
  unfold pyDate at h
  split at h
  · cases h
  · exact (Except.error.inj h).symm

theorem loadCredentials_file_eq (st0 st : ClientState)
    (h : loadCredentials st0 = .ok st) : st.file = st0.file := by
  obtain ⟨f, c, b⟩ := st0
  cases f with
  | none =>
    simp [loadCredentials] at h
    rw [← h]
  | some fc =>
    cases fc with
    | unparsable => simp [loadCredentials] at h
    | parsable m =>
      cases hm : m.auth_id with
      | none => simp [loadCredentials, hm] at h
      | some a =>
        simp [loadCredentials, hm] at h
        rw [← h]

theorem except_bind_ok {ε α β : Type} (a : α) (f : α → Except ε β) :
    (Except.ok a >>= f : Except ε β) = f a := rfl

theorem except_bind_error {ε α β : Type} (e : ε) (f : α → Except ε β) :
    (Except.error e >>= f : Except ε β) = Except.error e := rfl

theorem except_pure {ε β : Type} (b : β) : (pure b : Except ε β) = Except.ok b := rfl

theorem pyText_ok_iff (c : Cell) (t : String) : pyText c = .ok t ↔ c.text = some t := by
  cases hc : c.text <;> simp [pyText, hc]

theorem parseDueDate_error_not_ps (s : String) (e : PyError)
    (h : parseDueDate s = .error e) : isPageStructure e = false := by
  unfold parseDueDate at h
  cases h2 : pyIndex (pySplit (pyStrip s) "/") 2 with
  | error e2 =>
    rw [h2, except_bind_error] at h
    rw [pyIndex_error_eq _ _ _ h2] at h
    cases h
    rfl
  | ok p2 =>
    rw [h2, except_bind_ok] at h
    cases hy : pyInt p2 with
    | error ey =>
      rw [hy, except_bind_error] at h
      rw [pyInt_error_eq _ _ hy] at h
      cases h
      rfl
    | ok y =>
      rw [hy, except_bind_ok] at h
      cases h1 : pyIndex (pySplit (pyStrip s) "/") 1 with
      | error e1 =>
        rw [h1, except_bind_error] at h
        rw [pyIndex_error_eq _ _ _ h1] at h
        cases h
        rfl
      | ok p1 =>
        rw [h1, except_bind_ok] at h
        cases hm : pyInt p1 with
        | error em =>
          rw [hm, except_bind_error] at h
          rw [pyInt_error_eq _ _ hm] at h
          cases h
          rfl
        | ok m =>
          rw [hm, except_bind_ok] at h
          cases h0 : pyIndex (pySplit (pyStrip s) "/") 0 with
          | error e0 =>
            rw [h0, except_bind_error] at h
            rw [pyIndex_error_eq _ _ _ h0] at h
            cases h
            rfl
          | ok p0 =>
            rw [h0, except_bind_ok] at h
            cases hd : pyInt p0 with
            | error ed =>
              rw [hd, except_bind_error] at h
              rw [pyInt_error_eq _ _ hd] at h
              cases h
              rfl
            | ok d =>
              rw [hd, except_bind_ok] at h
              rw [pyDate_error_eq _ _ _ _ h]
              rfl

theorem extractLoan_error_not_ps (today : PyDate) (r : Row) (e : PyError)
    (h : extractLoan today r = .error e) : isPageStructure e = false := by
  unfold extractLoan at h
  cases h2 : pyIndex r.children 2 with
  | error e2 =>
    rw [h2, except_bind_error] at h
    rw [pyIndex_error_eq _ _ _ h2] at h
    cases h
    rfl
  | ok c2 =>
    rw [h2, except_bind_ok] at h
    cases ht2 : pyText c2 with
    | error et =>
      rw [ht2, except_bind_error] at h
      rw [pyText_error_eq _ _ ht2] at h
      cases h
      rfl
    | ok t2 =>
      rw [ht2, except_bind_ok] at h
      cases h3 : pyIndex r.children 3 with
      | error e3 =>
        rw [h3, except_bind_error] at h
        rw [pyIndex_error_eq _ _ _ h3] at h
        cases h
        rfl
      | ok c3 =>
        rw [h3, except_bind_ok] at h
        cases ht3 : pyText c3 with
        | error et3 =>
          rw [ht3, except_bind_error] at h
          rw [pyText_error_eq _ _ ht3] at h
          cases h
          rfl
        | ok t3 =>
          rw [ht3, except_bind_ok] at h
          cases hdd : parseDueDate t3 with
          | error edd =>
            rw [hdd, except_bind_error] at h
            cases h
            exact parseDueDate_error_not_ps _ _ hdd
          | ok due =>
            rw [hdd, except_bind_ok, except_pure] at h
            cases h

theorem extractLoan_ok_shape (today : PyDate) (r : Row) (l : Loan)
    (h : extractLoan today r = .ok l) :
    ∃ c2 s2 c3 s3, pyIndex r.children 2 = .ok c2 ∧ c2.text = some s2
      ∧ pyIndex r.children 3 = .ok c3 ∧ c3.text = some s3
      ∧ parseDueDate s3 = .ok l.due_date
      ∧ l.title = pyStrip s2 ∧ l.remaining_days = dateDiffDays l.due_date today := by
  unfold extractLoan at h
  cases h2 : pyIndex r.children 2 with
  | error e2 => rw [h2, except_bind_error] at h; cases h
  | ok c2 =>
    rw [h2, except_bind_ok] at h
    cases ht2 : pyText c2 with
    | error et => rw [ht2, except_bind_error] at h; cases h
    | ok t2 =>
      rw [ht2, except_bind_ok] at h
      cases h3 : pyIndex r.children 3 with
      | error e3 => rw [h3, except_bind_error] at h; cases h
      | ok c3 =>
        rw [h3, except_bind_ok] at h
        cases ht3 : pyText c3 with
        | error et3 => rw [ht3, except_bind_error] at h; cases h
        | ok t3 =>
          rw [ht3, except_bind_ok] at h
          cases hdd : parseDueDate t3 with
          | error edd => rw [hdd, except_bind_error] at h; cases h
          | ok due =>
            rw [hdd, except_bind_ok, except_pure] at h
            have hl := Except.ok.inj h
            subst hl
            exact ⟨c2, t2, c3, t3, rfl, (pyText_ok_iff _ _).mp ht2, rfl,
              (pyText_ok_iff _ _).mp ht3, hdd, rfl, rfl⟩

theorem extractLoans_ok_spec (today : PyDate) (rs : List Row) (ls : List Loan)
    (h : extractLoans today rs = .ok ls) :
    ls.length = rs.length
    ∧ ∀ i r, rs.get? i = some r →
        ∃ l, ls.get? i = some l ∧ extractLoan today r = .ok l := by
  induction rs generalizing ls with
  | nil =>
    unfold extractLoans at h
    have hl := Except.ok.inj h
    subst hl
    exact ⟨rfl, fun i r hi => by simp at hi⟩
  | cons r rs ih =>
    unfold extractLoans at h
    cases hr : extractLoan today r with
    | error e => rw [hr, except_bind_error] at h; cases h
    | ok l =>
      rw [hr, except_bind_ok] at h
      cases hrs : extractLoans today rs with
      | error e => rw [hrs, except_bind_error] at h; cases h
      | ok ls2 =>
        rw [hrs, except_bind_ok, except_pure] at h
        have hl := Except.ok.inj h
        subst hl
        obtain ⟨ih1, ih2⟩ := ih ls2 hrs
        refine ⟨by simp [ih1], fun i r0 hi => ?_⟩
        cases i with
        | zero =>
          simp only [List.get?] at hi
          cases hi
          exact ⟨l, rfl, hr⟩
        | succ j =>
          simp only [List.get?] at hi ⊢
          exact ih2 j r0 hi

theorem extractLoans_ok_forall_mem (today : PyDate) (rs : List Row) (ls : List Loan)
    (h : extractLoans today rs = .ok ls) :
    ∀ r ∈ rs, ∃ l ∈ ls, extractLoan today r = .ok l := by
  induction rs generalizing ls with
  | nil => intro r hr; simp at hr
  | cons r0 rs ih =>
    unfold extractLoans at h
    cases hr : extractLoan today r0 with
    | error e => rw [hr, except_bind_error] at h; cases h
    | ok l =>
      rw [hr, except_bind_ok] at h
      cases hrs : extractLoans today rs with
      | error e => rw [hrs, except_bind_error] at h; cases h
      | ok ls2 =>
        rw [hrs, except_bind_ok, except_pure] at h
        have hl := Except.ok.inj h
        subst hl
        intro r1 hr1
        cases List.mem_cons.mp hr1 with
        | inl heq => exact ⟨l, List.mem_cons_self _ _, heq ▸ hr⟩
        | inr hmem =>
          obtain ⟨l1, hl1, he1⟩ := ih ls2 hrs r1 hmem
          exact ⟨l1, List.mem_cons_of_mem _ hl1, he1⟩

/-! ## Claim theorems -/

/-- C6: for all `(auth_id, user_id)` string pairs, saving the credentials
and then loading yields back the identical pair: `_save_credentials`
followed by `_load_credentials` leaves exactly that record in `_creds`. -/
theorem save_load_roundtrip (st : ClientState) (a u : String) :
    (loadCredentials (saveCredentials st a u)).map (fun s => s.creds)
      = .ok ⟨some a, some u⟩ := rfl

/-- C2 (code bug, evaluated at the failing input): with a fully saved
record on disk, the `logout` subcommand starts from a fresh client whose
in-memory `_creds` dict is empty, so it prints `not authenticated` and
leaves the persisted record in place instead of deleting it; with no
record it prints the same message without crashing. -/
theorem logout_command_never_deletes_record :
    logoutCommand (some (.parsable ⟨some "A", some "U"⟩))
      = .ok (initState (some (.parsable ⟨some "A", some "U"⟩)), true)
    ∧ logoutCommand none = .ok (initState none, true) := ⟨rfl, rfl⟩

/-- C4 counterexample: loading an unparseable credentials file fails with
`json.JSONDecodeError`, not with the `CorruptStateError` the claim
names (no such class exists in the code). -/
theorem load_corrupt_cex :
    loadCredentials (initState (some .unparsable)) = .error .jsonDecodeError
    ∧ PyError.jsonDecodeError ≠ PyError.corruptStateError := ⟨rfl, by decide⟩

/-- C4 amended: a persisted file that exists but is not parseable as the
expected structure makes `_load_credentials` fail with a surfaced
(uncaught) exception — `JSONDecodeError` for unparseable content and
`KeyError` for parseable content missing the `auth_id` field — but never
with a `CorruptStateError`. -/
theorem load_corrupt_surfaced (st : ClientState) :
    (st.file = some .unparsable → loadCredentials st = .error .jsonDecodeError)
    ∧ ∀ u, st.file = some (.parsable ⟨none, u⟩) →
        loadCredentials st = .error (.keyError "auth_id") := by
  obtain ⟨f, c, b⟩ := st
  constructor
  · intro h
    simp only at h
    subst h
    rfl
  · intro u h
    simp only at h
    subst h
    rfl

/-- C4 witness: the amended statement evaluated at concrete states. -/
theorem load_corrupt_surfaced_witness :
    loadCredentials (initState (some .unparsable)) = .error .jsonDecodeError
    ∧ loadCredentials (initState (some (.parsable ⟨none, some "U"⟩)))
        = .error (.keyError "auth_id") :=
  ⟨(load_corrupt_surfaced (initState (some .unparsable))).1 rfl,
   (load_corrupt_surfaced (initState (some (.parsable ⟨none, some "U"⟩)))).2 (some "U") rfl⟩

/-- C5: when the probe body contains the timeout marker, `_ensure_auth`
resets the in-memory `_creds` to an empty dict, leaves the persisted file
untouched, prints the expiry notice and invokes `login` exactly once. -/
theorem ensure_auth_timeout_relogin (st0 : ClientState) (body : String)
    (st : ClientState) (a : String)
    (hl : loadCredentials st0 = .ok st) (ha : st.creds.auth_id = some a)
    (hm : strContains body timeoutMarker = true) :
    ensureAuth st0 body = .ok ⟨{ st with creds := ⟨none, none⟩ }, 1, true⟩
    ∧ ({ st with creds := (⟨none, none⟩ : CredsMap) } : ClientState).file = st0.file := by
  constructor
  · simp [ensureAuth, hl, except_bind_ok, ha, hm, except_pure]
  · exact loadCredentials_file_eq st0 st hl

/-- C5 witness: the timeout path evaluated on a concrete state and body. -/
theorem ensure_auth_timeout_relogin_witness :
    ensureAuth (initState (some (.parsable ⟨some "A", some "U"⟩)))
        "see /abnetopac/timeout.html"
      = .ok ⟨{ file := some (.parsable ⟨some "A", some "U"⟩), creds := ⟨none, none⟩,
               base := ABNETSYS_BASE ++ "/" ++ "A" }, 1, true⟩ :=
  (ensure_auth_timeout_relogin (initState (some (.parsable ⟨some "A", some "U"⟩)))
    "see /abnetopac/timeout.html"
    { file := some (.parsable ⟨some "A", some "U"⟩), creds := ⟨some "A", some "U"⟩,
      base := ABNETSYS_BASE ++ "/" ++ "A" }
    "A" (by decide) (by decide) (by decide)).1

/-- C10: when the probe body does not contain the timeout marker,
`_ensure_auth` accepts the stored session: it returns with the loaded
state unchanged, never invokes `login` and reports no error. -/
theorem ensure_auth_accepts_unmarked_body (st0 : ClientState) (body : String)
    (st : ClientState) (a : String)
    (hl : loadCredentials st0 = .ok st) (ha : st.creds.auth_id = some a)
    (hm : strContains body timeoutMarker = false) :
    ensureAuth st0 body = .ok ⟨st, 0, false⟩ := by
  simp [ensureAuth, hl, except_bind_ok, ha, hm, except_pure]

/-- C10 witness: an unrecognized (maintenance-style) body is accepted. -/
theorem ensure_auth_accepts_unmarked_body_witness :
    ensureAuth (initState (some (.parsable ⟨some "A", some "U"⟩)))
        "scheduled maintenance page"
      = .ok ⟨{ file := some (.parsable ⟨some "A", some "U"⟩), creds := ⟨some "A", some "U"⟩,
               base := ABNETSYS_BASE ++ "/" ++ "A" }, 0, false⟩ :=
  ensure_auth_accepts_unmarked_body (initState (some (.parsable ⟨some "A", some "U"⟩)))
    "scheduled maintenance page"
    { file := some (.parsable ⟨some "A", some "U"⟩), creds := ⟨some "A", some "U"⟩,
      base := ABNETSYS_BASE ++ "/" ++ "A" }
    "A" (by decide) (by decide) (by decide)

/-- C9 counterexample: a partial on-disk record holding only `auth_id` is
not treated as absent — `_ensure_auth` accepts it and never invokes
`login` (second conjunct shows the genuinely-absent case does invoke
`login`). -/
theorem partial_record_treated_present_cex :
    ensureAuth (initState (some (.parsable ⟨some "A", none⟩))) ""
      = .ok ⟨⟨some (.parsable ⟨some "A", none⟩), ⟨some "A", none⟩,
             ABNETSYS_BASE ++ "/" ++ "A"⟩, 0, false⟩
    ∧ ensureAuth (initState none) "" = .ok ⟨initState none, 1, false⟩ := ⟨rfl, rfl⟩

/-- C9 amended: records written by `_save_credentials` always carry both
fields, but a partial on-disk record is not treated as absent: one missing
`auth_id` makes `_load_credentials` raise `KeyError`, and one holding only
`auth_id` is accepted by `_ensure_auth` as an authenticated session. -/
theorem creds_record_shape_amended (st : ClientState) (a u : String) :
    ((saveCredentials st a u).creds = ⟨some a, some u⟩
      ∧ (saveCredentials st a u).file = some (.parsable ⟨some a, some u⟩))
    ∧ (∀ st2 : ClientState, ∀ u2, st2.file = some (.parsable ⟨none, u2⟩) →
        loadCredentials st2 = .error (.keyError "auth_id"))
    ∧ (∀ st2 : ClientState, ∀ body, st2.file = some (.parsable ⟨some a, none⟩) →
        strContains body timeoutMarker = false →
        ensureAuth st2 body
          = .ok ⟨⟨st2.file, ⟨some a, none⟩, ABNETSYS_BASE ++ "/" ++ a⟩, 0, false⟩) := by
  refine ⟨⟨rfl, rfl⟩, ?_, ?_⟩
  · intro st2 u2 h
    obtain ⟨f, c, b⟩ := st2
    simp only at h
    subst h
    rfl
  · intro st2 body h hm
    obtain ⟨f, c, b⟩ := st2
    simp only at h
    subst h
    simp [ensureAuth, loadCredentials, except_bind_ok, hm, except_pure]

/-- C9 witness: the amended statement evaluated at concrete records. -/
theorem creds_record_shape_amended_witness :
    (saveCredentials (initState none) "A" "U").creds = ⟨some "A", some "U"⟩
    ∧ loadCredentials (initState (some (.parsable ⟨none, some "U"⟩)))
        = .error (.keyError "auth_id")
    ∧ ensureAuth (initState (some (.parsable ⟨some "A", none⟩))) "maintenance"
        = .ok ⟨{ file := some (.parsable ⟨some "A", none⟩), creds := ⟨some "A", none⟩,
                 base := ABNETSYS_BASE ++ "/" ++ "A" }, 0, false⟩ :=
  ⟨(creds_record_shape_amended (initState none) "A" "U").1.1,
   (creds_record_shape_amended (initState none) "A" "U").2.1 _ (some "U") rfl,
   (creds_record_shape_amended (initState none) "A" "U").2.2 _ "maintenance" rfl (by decide)⟩

/-- C8: the `login` retry loop recurses on every response carrying the
`incorrecta` marker, returns only a marker-free response, and for every
`n` there is an environment forcing `n` failed attempts before success —
so the retries are unbounded. -/
theorem login_retry_unbounded :
    (∀ (r : AuthResponse) (rs : List AuthResponse),
        strContains r.body "incorrecta" = true →
        loginAttempts (r :: rs) = (loginAttempts rs).map (fun p => (p.1, p.2 + 1)))
    ∧ (∀ (rs : List AuthResponse) (r : AuthResponse) (n : Nat),
        loginAttempts rs = some (r, n) → strContains r.body "incorrecta" = false)
    ∧ (∀ (n : Nat) (bad good : AuthResponse),
        strContains bad.body "incorrecta" = true →
        strContains good.body "incorrecta" = false →
        loginAttempts (List.replicate n bad ++ [good]) = some (good, n + 1)) := by
  refine ⟨?_, ?_, ?_⟩
  · intro r rs h
    cases hra : loginAttempts rs with
    | none => simp [loginAttempts, h, hra]
    | some p => obtain ⟨res, n⟩ := p; simp [loginAttempts, h, hra]
  · intro rs
    induction rs with
    | nil => intro r n h; cases h
    | cons r0 rs ih =>
      intro r n h
      unfold loginAttempts at h
      cases hm : strContains r0.body "incorrecta" with
      | false =>
        rw [hm] at h
        simp only [Bool.false_eq_true, if_false] at h
        have := Option.some.inj h
        rw [← (Prod.mk.injEq _ _ _ _).mp this |>.1]
        exact hm
      | true =>
        rw [hm] at h
        simp only [if_true] at h
        cases hra : loginAttempts rs with
        | none => rw [hra] at h; cases h
        | some p =>
          obtain ⟨res, m⟩ := p
          rw [hra] at h
          simp only at h
          have := Option.some.inj h
          have hres := (Prod.mk.injEq _ _ _ _).mp this |>.1
          rw [← hres]
          exact ih res m hra
  · intro n bad good h1 h2
    induction n with
    | zero => simp [loginAttempts, h2]
    | succ k ih =>
      rw [List.replicate_succ, List.cons_append]
      unfold loginAttempts
      rw [h1]
      simp only [if_true]
      rw [ih]

/-- C8 witness: three marker-carrying responses force three retries, then
the marker-free response is returned on the fourth attempt. -/
theorem login_retry_unbounded_witness :
    loginAttempts (List.replicate 3 badResp ++ [goodResp]) = some (goodResp, 4) :=
  login_retry_unbounded.2.2 3 badResp goodResp (by decide) (by decide)

/-- C1 counterexample: a login page with no meta-refresh tag makes the
extraction fail with an unqualified `IndexError`, not with the
`PageStructureError` the claim names. -/
theorem login_missing_meta_index_error_cex :
    loginExtractPath ⟨[]⟩ = .error (.indexError "list index out of range")
    ∧ isPageStructure (.indexError "list index out of range") = false := ⟨rfl, rfl⟩

/-- C1 amended: when the meta-refresh tag, the logout anchor, or the
session-URL marker is absent, the extraction in `login` and `status`
crashes with an unqualified index-out-of-range `IndexError`; no
`PageStructureError` is raised (no such class exists in the code). -/
theorem extraction_missing_node_index_error :
    (∀ p : LoginPage, p.metaRefreshContents = [] →
        loginExtractPath p = .error (.indexError "list index out of range"))
    ∧ (∀ sp : StatusPage, sp.anchorTitles = [] →
        statusName sp = .error (.indexError "list index out of range"))
    ∧ (∀ (r : AuthResponse) (t n : String), r.anchorTitles = [t] →
        pyIndex (pySplit t "Cerrar sesión ") 1 = .ok n →
        pySplit r.url "abnetopac/" = [r.url] →
        loginHandleSuccess r = .error (.indexError "list index out of range")) := by
  refine ⟨?_, ?_, ?_⟩
  · intro p h
    unfold loginExtractPath
    rw [h]
    rfl
  · intro sp h
    unfold statusName
    rw [h]
    rfl
  · intro r t n h1 h2 h3
    unfold loginHandleSuccess
    rw [h1]
    simp only [pyIndex, except_bind_ok]
    rw [h2]
    simp only [except_bind_ok]
    rw [h3]
    simp only [pyIndex, except_bind_error]

/-- C1 witness: the amended statement evaluated on concrete pages. -/
theorem extraction_missing_node_index_error_witness :
    loginExtractPath ⟨[]⟩ = .error (.indexError "list index out of range")
    ∧ statusName ⟨[]⟩ = .error (.indexError "list index out of range")
    ∧ loginHandleSuccess ⟨"", ["Cerrar sesión J"], "https://nope"⟩
        = .error (.indexError "list index out of range") :=
  ⟨extraction_missing_node_index_error.1 ⟨[]⟩ rfl,
   extraction_missing_node_index_error.2.1 ⟨[]⟩ rfl,
   extraction_missing_node_index_error.2.2 ⟨"", ["Cerrar sesión J"], "https://nope"⟩
     "Cerrar sesión J" "J" rfl (by decide) (by decide)⟩

/-- C3 counterexample: a data row whose 4th cell is `31-02-2024` (wrong
delimiter) makes the loans extraction fail with an unqualified
`IndexError`, not with the `PageStructureError` the claim names. -/
theorem malformed_date_crashes_cex :
    listLoans ⟨2024, 1, 10⟩
        ⟨[⟨[]⟩, ⟨[⟨some "1"⟩, ⟨some "x"⟩, ⟨some "T"⟩, ⟨some "31-02-2024"⟩]⟩]⟩
      = .error (.indexError "list index out of range")
    ∧ isPageStructure (.indexError "list index out of range") = false := ⟨by decide, rfl⟩

/-- C3 amended: a data row with fewer than 4 cells, or whose 4th cell does
not parse as a `DD/MM/YYYY` date, makes the whole loans extraction fail —
not a silent skip — but with an unqualified crash exception (`IndexError`,
`AttributeError` or `ValueError`), never a `PageStructureError`. -/
theorem malformed_row_fails_extraction (today : PyDate) (r : Row)
    (h : r.children.length < 4 ∨
         ∃ c3 s3 e, pyIndex r.children 3 = .ok c3 ∧ c3.text = some s3
           ∧ parseDueDate s3 = .error e) :
    (∃ e, extractLoan today r = .error e ∧ isPageStructure e = false)
    ∧ ∀ (page : LoansPage) (ls : List Loan), r ∈ page.rows.drop 1 →
        listLoans today page ≠ .ok ls := by
  have hfail : ∀ l, extractLoan today r ≠ .ok l := by
    intro l hok
    obtain ⟨c2, s2, c3, s3, hc2, hs2, hc3, hs3, hdd, _, _⟩ :=
      extractLoan_ok_shape today r l hok
    cases h with
    | inl hlen =>
      have hg := (pyIndex_ok_iff _ _ _).mp hc3
      obtain ⟨hlt, _⟩ := List.get?_eq_some.mp hg
      omega
    | inr hex =>
      obtain ⟨c3b, s3b, e, hc3b, hs3b, hpd⟩ := hex
      have hcc : c3 = c3b := Except.ok.inj (hc3.symm.trans hc3b)
      subst hcc
      have hss : s3 = s3b := Option.some.inj (hs3.symm.trans hs3b)
      subst hss
      rw [hdd] at hpd
      cases hpd
  constructor
  · cases hE : extractLoan today r with
    | error e => exact ⟨e, rfl, extractLoan_error_not_ps today r e hE⟩
    | ok l => exact absurd hE (hfail l)
  · intro page ls hmem hok
    obtain ⟨l, _, hl⟩ := extractLoans_ok_forall_mem today (page.rows.drop 1) ls hok r hmem
    exact hfail l hl

/-- C3 witness: the amended statement evaluated on a row with no cells. -/
theorem malformed_row_fails_extraction_witness :
    (∃ e, extractLoan ⟨2024, 1, 10⟩ ⟨[]⟩ = .error e ∧ isPageStructure e = false)
    ∧ ∀ (page : LoansPage) (ls : List Loan), (⟨[]⟩ : Row) ∈ page.rows.drop 1 →
        listLoans ⟨2024, 1, 10⟩ page ≠ .ok ls :=
  malformed_row_fails_extraction ⟨2024, 1, 10⟩ ⟨[]⟩ (Or.inl (by decide))

/-- C7: a successful loans extraction yields exactly one record per data
row (header excluded), each row's record carrying the trimmed 3rd cell as
title, the 4th cell parsed as a `DD/MM/YYYY` date, and
`remaining_days = due_date - today`; in particular a due date of
2024-01-01 against a fixed today of 2024-01-10 gives `-9`. -/
theorem loans_extraction_correct (today : PyDate) (page : LoansPage) (ls : List Loan)
    (h : listLoans today page = .ok ls) :
    ls.length = page.rows.length - 1
    ∧ (∀ i r, (page.rows.drop 1).get? i = some r →
        ∃ l, ls.get? i = some l ∧ extractLoan today r = .ok l)
    ∧ (∀ r l, extractLoan today r = .ok l →
        ∃ c2 s2 c3 s3, pyIndex r.children 2 = .ok c2 ∧ c2.text = some s2
          ∧ pyIndex r.children 3 = .ok c3 ∧ c3.text = some s3
          ∧ parseDueDate s3 = .ok l.due_date
          ∧ l.title = pyStrip s2 ∧ l.remaining_days = dateDiffDays l.due_date today)
    ∧ dateDiffDays ⟨2024, 1, 1⟩ ⟨2024, 1, 10⟩ = -9 := by
  obtain ⟨h1, h2⟩ := extractLoans_ok_spec today (page.rows.drop 1) ls h
  refine ⟨?_, h2, fun r l => extractLoan_ok_shape today r l, by decide⟩
  rw [h1, List.length_drop]

/-- C7 witness: the loans fixture (header plus two data rows) evaluated
against the fixed today 2024-01-10 produces exactly the two expected
records. -/
theorem loans_extraction_correct_witness :
    demoLoans.length = demoLoansPage.rows.length - 1
    ∧ (∀ i r, (demoLoansPage.rows.drop 1).get? i = some r →
        ∃ l, demoLoans.get? i = some l ∧ extractLoan demoToday r = .ok l)
    ∧ (∀ r l, extractLoan demoToday r = .ok l →
        ∃ c2 s2 c3 s3, pyIndex r.children 2 = .ok c2 ∧ c2.text = some s2
          ∧ pyIndex r.children 3 = .ok c3 ∧ c3.text = some s3
          ∧ parseDueDate s3 = .ok l.due_date
          ∧ l.title = pyStrip s2 ∧ l.remaining_days = dateDiffDays l.due_date demoToday)
    ∧ dateDiffDays ⟨2024, 1, 1⟩ ⟨2024, 1, 10⟩ = -9 :=
  loans_extraction_correct demoToday demoLoansPage demoLoans (by decide)
